import Mathlib

/-!
Shallow embedding of the flights-scraper pipeline (`src/index.ts` together
with the type declarations of `types.ts`).

External effects are modelled explicitly:

* the file system used by `useFileCache` is an association list from file
  paths to file contents (`none` on lookup models `fs.readFile` throwing);
* the two HTTP endpoints of the provider are oracle functions
  (`String → SkyScannerSuggestions` for auto-complete and
  `SearchParams → SkyScannerFlights` for the one-way flight search);
* every HTTP call that is actually issued is recorded in an event trace,
  so claims about "no network call happens" are statements about the trace;
* `JSON.stringify` / `JSON.parse` are language builtins, modelled by a
  serializer parameter `T → String` and a deserializer `String → Option T`
  (`none` models `JSON.parse` throwing), matching the generic signature of
  `useFileCache<T>`;
* the environment (`process.env.RAPID_API_KEY`) is an `Option String`; the
  code's `!RAPID_API_KEY` truthiness test is false for both a missing and
  an empty key;
* `new Date(s)` applied to the provider's timestamp strings is modelled by
  keeping the source string `s` (the claims never inspect Date semantics);
* exceptions are an `Except` layer over explicit state passing; a thrown
  exception does not roll back state mutations that already happened,
  so every operation returns its result together with the state.

`writeToSpreadSheet` and the Google-sheets formatting calls are outside the
core (presentation side effects) and are not modelled; `main` is modelled up
to the production of the `TripResult`.
-/

/-- From `types.ts`: `CityInfo`, the `relevantFlightParams` record of a provider
suggestion. -/
structure CityInfo where
  entityId : String
  flightPlaceType : String
  localizedName : String
  skyId : String
deriving DecidableEq, Repr

/-- From `types.ts`: `FlightResult`. `departsAt` / `arrivesAt` hold
`new Date(...)` of the provider's timestamp strings, modelled by the source
string. `carrier` is `data.carriers.marketing[0]?.name`, which can be
undefined, hence `Option`. -/
structure FlightResult where
  date : String
  origin : String
  destination : String
  departsAt : String
  arrivesAt : String
  url : String
  price : Int
  carrier : Option String
deriving DecidableEq, Repr

/-- From `types.ts`: `FlightQuery` — one leg of the trip definition. -/
structure FlightQuery where
  dates : List String
  origins : List String
  destinations : List String
deriving DecidableEq, Repr

/-- From `types.ts`: `Trip` — two optional legs. -/
structure Trip where
  depart : Option FlightQuery
  «return» : Option FlightQuery
deriving DecidableEq, Repr

/-- From `types.ts`: `TripResult`. -/
structure TripResult where
  depart : List FlightResult
  «return» : List FlightResult
deriving DecidableEq, Repr

/-- The two values of the `'depart' | 'return'` union used by
`getFlightResults`. -/
inductive LegType where
  | depart
  | «return»
deriving DecidableEq, Repr

/-- Selecting a leg of the trip, `trip[type]`. -/
def Trip.leg (trip : Trip) : LegType → Option FlightQuery
  | .depart => trip.depart
  | .«return» => trip.«return»

/-- Auto-complete response, as dereferenced by
`result.inputSuggest?.[0]?.navigation?.relevantFlightParams`: each step of
the optional chain is an `Option`. -/
structure SuggestNavigation where
  relevantFlightParams : Option CityInfo
deriving DecidableEq, Repr

structure InputSuggestion where
  navigation : Option SuggestNavigation
deriving DecidableEq, Repr

structure SkyScannerSuggestions where
  inputSuggest : Option (List InputSuggestion)
deriving DecidableEq, Repr

/-- From `types.ts`: the leg record inside `SkyScannerFlights`; array elements
keep their declared (fully present) field types under `DeepPartial`. -/
structure CarrierName where
  name : String
deriving DecidableEq, Repr

structure LegCarriers where
  marketing : List CarrierName
deriving DecidableEq, Repr

structure LegPlace where
  name : String
deriving DecidableEq, Repr

structure Leg where
  carriers : LegCarriers
  arrival : String
  departure : String
  origin : LegPlace
  destination : LegPlace
  stopCount : Int
deriving DecidableEq, Repr

structure ItemPrice where
  raw : Int
deriving DecidableEq, Repr

structure Item where
  legs : List Leg
  price : ItemPrice
deriving DecidableEq, Repr

/-- One itinerary bucket. `items` is `Option` because the runtime response
may omit it; the code dereferences it with a bare `bucket.items!`. -/
structure Bucket where
  items : Option (List Item)
deriving DecidableEq, Repr

structure Itineraries where
  buckets : Option (List Bucket)
deriving DecidableEq, Repr

structure FlightsData where
  itineraries : Option Itineraries
deriving DecidableEq, Repr

structure SkyScannerFlights where
  data : Option FlightsData
deriving DecidableEq, Repr

/-- The query parameters of the one-way search call
(`date, origin, originId, destination, destinationId`; the constant
parameters `cabinClass=economy, adults=1, currency=EUR` carry no
information and are omitted). -/
structure SearchParams where
  date : String
  origin : String
  originId : String
  destination : String
  destinationId : String
deriving DecidableEq, Repr

/-- Process environment: `RAPID_API_KEY`. -/
structure Env where
  rapidApiKey : Option String
deriving DecidableEq, Repr

/-- The `!RAPID_API_KEY` test — JavaScript string truthiness: missing or empty is
falsy. -/
def keyMissing (env : Env) : Bool :=
  match env.rapidApiKey with
  | none => true
  | some k => k == ""

/-- The errors the modelled pipeline can throw. `missingCredential` is the
`'RAPID_API_KEY environment variable is required.'` throw, `unknownCity`
the `Unknown city: ...` throw, and `typeError` a JavaScript runtime
`TypeError` from dereferencing an undefined value (field name recorded). -/
inductive Err where
  | missingCredential
  | unknownCity (name : String)
  | typeError (field : String)
deriving DecidableEq, Repr

/-- An HTTP call actually issued to the provider. -/
inductive ApiCall where
  | autoComplete (name : String)
  | flightSearch (params : SearchParams)
deriving DecidableEq, Repr

def ApiCall.isSearch : ApiCall → Bool
  | .flightSearch _ => true
  | .autoComplete _ => false

/-- Mutable process state: the module-level `cache.cityInfo` mapping and
the trace of HTTP calls issued so far (most recent last). -/
structure St where
  cityInfo : List (String × CityInfo)
  events : List ApiCall
deriving DecidableEq, Repr

/-- Every name→descriptor entry visible in `c` is still visible, unchanged,
in `c'` — the order in which claim C10 says the in-memory city mapping only
ever grows. -/
def cityPreserved (c c' : List (String × CityInfo)) : Prop :=
  ∀ n i, c.lookup n = some i → c'.lookup n = some i

/-- The `fetchSkyscanner` helper specialised to the auto-complete endpoint: throws if
the API key is falsy, otherwise issues the call (recorded in the trace) and
returns the oracle's response. -/
def fetchAutoComplete (env : Env) (sp : String → SkyScannerSuggestions)
    (name : String) (st : St) : Except Err SkyScannerSuggestions × St :=
  if keyMissing env then
    (Except.error Err.missingCredential, st)
  else
    (Except.ok (sp name), { st with events := st.events ++ [ApiCall.autoComplete name] })

/-- The `fetchSkyscanner` helper specialised to the one-way flight-search endpoint. -/
def fetchFlightSearch (env : Env) (fp : SearchParams → SkyScannerFlights)
    (params : SearchParams) (st : St) : Except Err SkyScannerFlights × St :=
  if keyMissing env then
    (Except.error Err.missingCredential, st)
  else
    (Except.ok (fp params), { st with events := st.events ++ [ApiCall.flightSearch params] })

/-- JavaScript `String.prototype.trim` — strips leading and trailing
whitespace (modelled on the string's character list so that it is fully
kernel-reducible). -/
def jsTrim (s : String) : String :=
  ⟨((s.data.dropWhile Char.isWhitespace).reverse.dropWhile Char.isWhitespace).reverse⟩

/-- JavaScript `date.replaceAll('-', '')` — removes every dash. -/
def removeDashes (s : String) : String := ⟨s.data.filter (fun c => c != '-')⟩

/-- The `flightUrl` template — the deep link built from the resolved sky ids and the
date with its dashes removed. -/
def flightUrl (originId destinationId date : String) : String :=
  "https://www.skyscanner.hu/transport/flights/" ++ originId ++ "/" ++ destinationId
    ++ "/" ++ removeDashes date
    ++ "/?adultsv2=1&cabinclass=economy&childrenv2=&ref=home&rtn=0&preferdirects=true&outboundaltsenabled=false&inboundaltsenabled=false"

/-- The optional chain `result.inputSuggest?.[0]?.navigation?.relevantFlightParams`. -/
def extractCityInfo (result : SkyScannerSuggestions) : Option CityInfo :=
  ((result.inputSuggest.bind List.head?).bind InputSuggestion.navigation).bind
    SuggestNavigation.relevantFlightParams

/-- Function `getCityInfo`: in-memory memoised city resolution. On a hit returns the
cached descriptor with no network call; on a miss fetches, extracts the
first suggestion's params, throws `unknownCity` when absent, and otherwise
stores the descriptor before returning it. -/
def getCityInfo (env : Env) (sp : String → SkyScannerSuggestions)
    (name : String) (st : St) : Except Err CityInfo × St :=
  match st.cityInfo.lookup name with
  | some info => (Except.ok info, st)
  | none =>
    match fetchAutoComplete env sp name st with
    | (Except.error e, st₁) => (Except.error e, st₁)
    | (Except.ok result, st₁) =>
      match extractCityInfo result with
      | none => (Except.error (Err.unknownCity name), st₁)
      | some info =>
        (Except.ok info, { st₁ with cityInfo := (name, info) :: st₁.cityInfo })

/-- The optional chain `result.data?.itineraries?.buckets?.[0]`. -/
def firstBucket (result : SkyScannerFlights) : Option Bucket :=
  ((result.data.bind FlightsData.itineraries).bind Itineraries.buckets).bind List.head?

/-- The filter predicate `item.legs[0]?.stopCount === 0`. -/
def nonStop (item : Item) : Bool :=
  (item.legs.head?.map Leg.stopCount) == some 0

/-- One query tuple as passed to `getFlights` (`opt`). -/
structure FlightQueryOpt where
  date : String
  origin : String
  destination : String
deriving DecidableEq, Repr

/-- The `fightOptions.forEach` body: for each retained itinerary take
`flight.legs[0]` (a runtime `TypeError` when the legs array is empty — the
model records which dereference failed) and push the normalized
`FlightResult`. -/
def buildResults (opt : FlightQueryOpt) (originInfo destinationInfo : CityInfo) :
    List Item → Except Err (List FlightResult)
  | [] => Except.ok []
  | flight :: rest =>
    match flight.legs.head? with
    | none => Except.error (Err.typeError "legs")
    | some data =>
      match buildResults opt originInfo destinationInfo rest with
      | Except.error e => Except.error e
      | Except.ok rs =>
        Except.ok
          ({ date := opt.date
             origin := data.origin.name
             destination := data.destination.name
             departsAt := data.departure
             arrivesAt := data.arrival
             url := flightUrl originInfo.skyId destinationInfo.skyId opt.date
             price := flight.price.raw
             carrier := (data.carriers.marketing.head?).map CarrierName.name } :: rs)

/-- Function `getFlights`: resolve both endpoints, issue one search call, read only
the first bucket (absent bucket yields `[]`), dereference `bucket.items!`
(a runtime `TypeError` when `items` is undefined), filter to non-stop
itineraries and map them into `FlightResult`s. -/
def getFlights (env : Env) (sp : String → SkyScannerSuggestions)
    (fp : SearchParams → SkyScannerFlights) (opt : FlightQueryOpt) (st : St) :
    Except Err (List FlightResult) × St :=
  match getCityInfo env sp opt.origin st with
  | (Except.error e, st₁) => (Except.error e, st₁)
  | (Except.ok originInfo, st₁) =>
    match getCityInfo env sp opt.destination st₁ with
    | (Except.error e, st₂) => (Except.error e, st₂)
    | (Except.ok destinationInfo, st₂) =>
      match fetchFlightSearch env fp
          { date := opt.date
            origin := originInfo.skyId
            originId := originInfo.entityId
            destination := destinationInfo.skyId
            destinationId := destinationInfo.entityId } st₂ with
      | (Except.error e, st₃) => (Except.error e, st₃)
      | (Except.ok result, st₃) =>
        match firstBucket result with
        | none => (Except.ok [], st₃)
        | some bucket =>
          match bucket.items with
          | none => (Except.error (Err.typeError "items"), st₃)
          | some items =>
            (buildResults opt originInfo destinationInfo (items.filter nonStop), st₃)

/-- The innermost `for (let date of trip[type].dates)` loop of
`getFlightResults`, for a fixed origin and destination. -/
def loopDates (env : Env) (sp : String → SkyScannerSuggestions)
    (fp : SearchParams → SkyScannerFlights) (origin destination : String) :
    List String → St → Except Err (List FlightResult) × St
  | [], st => (Except.ok [], st)
  | date :: dates, st =>
    match getFlights env sp fp { date := date, origin := origin, destination := destination } st with
    | (Except.error e, st₁) => (Except.error e, st₁)
    | (Except.ok rs, st₁) =>
      match loopDates env sp fp origin destination dates st₁ with
      | (Except.error e, st₂) => (Except.error e, st₂)
      | (Except.ok rs₁, st₂) => (Except.ok (rs ++ rs₁), st₂)

/-- The middle `for (let destination of trip[type].destinations)` loop. -/
def loopDestinations (env : Env) (sp : String → SkyScannerSuggestions)
    (fp : SearchParams → SkyScannerFlights) (origin : String) :
    List String → List String → St → Except Err (List FlightResult) × St
  | [], _, st => (Except.ok [], st)
  | destination :: destinations, dates, st =>
    match loopDates env sp fp origin destination dates st with
    | (Except.error e, st₁) => (Except.error e, st₁)
    | (Except.ok rs, st₁) =>
      match loopDestinations env sp fp origin destinations dates st₁ with
      | (Except.error e, st₂) => (Except.error e, st₂)
      | (Except.ok rs₁, st₂) => (Except.ok (rs ++ rs₁), st₂)

/-- The outer `for (let origin of trip[type].origins)` loop. -/
def loopOrigins (env : Env) (sp : String → SkyScannerSuggestions)
    (fp : SearchParams → SkyScannerFlights) :
    List String → List String → List String → St → Except Err (List FlightResult) × St
  | [], _, _, st => (Except.ok [], st)
  | origin :: origins, destinations, dates, st =>
    match loopDestinations env sp fp origin destinations dates st with
    | (Except.error e, st₁) => (Except.error e, st₁)
    | (Except.ok rs, st₁) =>
      match loopOrigins env sp fp origins destinations dates st₁ with
      | (Except.error e, st₂) => (Except.error e, st₂)
      | (Except.ok rs₁, st₂) => (Except.ok (rs ++ rs₁), st₂)

/-- Function `getFlightResults`: an absent leg contributes nothing; otherwise the
triple nested loop over origins × destinations × dates, concatenating the
per-query results with `results.push(...)`. -/
def getFlightResults (env : Env) (sp : String → SkyScannerSuggestions)
    (fp : SearchParams → SkyScannerFlights) (trip : Trip) (type : LegType) (st : St) :
    Except Err (List FlightResult) × St :=
  match trip.leg type with
  | none => (Except.ok [], st)
  | some leg => loopOrigins env sp fp leg.origins leg.destinations leg.dates st

/-- The spec's `FlightQueryExpander`: the ordered list of query tuples one
leg expands to — origin outermost, destination middle, date innermost; an
absent leg expands to the empty sequence. (The source realises this order
as the nested loops of `getFlightResults`; `getFlightResults_eq_searchLoop`
below connects the two.) -/
def expand : Option FlightQuery → List FlightQueryOpt
  | none => []
  | some leg =>
    leg.origins.flatMap fun origin =>
      leg.destinations.flatMap fun destination =>
        leg.dates.map fun date =>
          { date := date, origin := origin, destination := destination }

/-- Sequentially running `getFlights` over a list of query tuples,
concatenating results in order — the flattened form of the nested loops. -/
def searchLoop (env : Env) (sp : String → SkyScannerSuggestions)
    (fp : SearchParams → SkyScannerFlights) :
    List FlightQueryOpt → St → Except Err (List FlightResult) × St
  | [], st => (Except.ok [], st)
  | q :: qs, st =>
    match getFlights env sp fp q st with
    | (Except.error e, st₁) => (Except.error e, st₁)
    | (Except.ok rs, st₁) =>
      match searchLoop env sp fp qs st₁ with
      | (Except.error e, st₂) => (Except.error e, st₂)
      | (Except.ok rs₁, st₂) => (Except.ok (rs ++ rs₁), st₂)

/-- Sequencing two leg computations: propagate the first error, otherwise
run the continuation and concatenate the result lists (the shape shared by
`searchLoop` and every nested loop level). -/
def seqResults (x : Except Err (List FlightResult) × St)
    (f : St → Except Err (List FlightResult) × St) : Except Err (List FlightResult) × St :=
  match x with
  | (Except.error e, st₁) => (Except.error e, st₁)
  | (Except.ok rs, st₁) =>
    match f st₁ with
    | (Except.error e, st₂) => (Except.error e, st₂)
    | (Except.ok rs₁, st₂) => (Except.ok (rs ++ rs₁), st₂)

/-- The file path `cache-<name>.json`. -/
def cachePath (name : String) : String := "cache-" ++ name ++ ".json"

/-- Outcome of `useFileCache`: the returned (or thrown) value, the file
system and process state afterwards, and how many times `fetchData` was
invoked. -/
structure CacheResult (T : Type) where
  result : Except Err T
  fs : List (String × String)
  st : St
  computeCalls : Nat
deriving Repr

/-- The `try` block of `useFileCache`: read the file (a missing file makes
`readFile` throw, modelled by `none`), throw on whitespace-only content,
otherwise `JSON.parse` it (`deserialize` returning `none` models the parse
throwing).  `none` is any of the three read failures. -/
def readCache {T : Type} (deserialize : String → Option T)
    (fs : List (String × String)) (name : String) : Option T :=
  match fs.lookup (cachePath name) with
  | none => none
  | some data => if jsTrim data = "" then none else deserialize data

/-- Function `useFileCache`: any failure of the `try` block lands in the `catch`,
which invokes `fetchData` once, writes the serialized result and returns
it; an error thrown by `fetchData` itself propagates before the write. -/
def useFileCache {T : Type} (name : String) (serialize : T → String)
    (deserialize : String → Option T) (fetchData : St → Except Err T × St)
    (fs : List (String × String)) (st : St) : CacheResult T :=
  match readCache deserialize fs name with
  | some v => ⟨Except.ok v, fs, st, 0⟩
  | none =>
    match fetchData st with
    | (Except.error e, st₁) => ⟨Except.error e, fs, st₁, 1⟩
    | (Except.ok v, st₁) => ⟨Except.ok v, (cachePath name, serialize v) :: fs, st₁, 1⟩

/-- The compute closure passed to `useFileCache('results', ...)` in `main`:
collect the depart leg, then the return leg. -/
def tripCompute (env : Env) (sp : String → SkyScannerSuggestions)
    (fp : SearchParams → SkyScannerFlights) (trip : Trip) (st : St) :
    Except Err TripResult × St :=
  match getFlightResults env sp fp trip LegType.depart st with
  | (Except.error e, st₁) => (Except.error e, st₁)
  | (Except.ok depart, st₁) =>
    match getFlightResults env sp fp trip LegType.«return» st₁ with
    | (Except.error e, st₂) => (Except.error e, st₂)
    | (Except.ok ret, st₂) => (Except.ok ⟨depart, ret⟩, st₂)

/-- Function `main`, up to the production of the `TripResult` (the spreadsheet write
is an external presentation effect). -/
def mainRun (env : Env) (sp : String → SkyScannerSuggestions)
    (fp : SearchParams → SkyScannerFlights)
    (serialize : TripResult → String) (deserialize : String → Option TripResult)
    (trip : Trip) (fs : List (String × String)) (st : St) : CacheResult TripResult :=
  useFileCache "results" serialize deserialize (tripCompute env sp fp trip) fs st

/-! Concrete test fixtures.

Closed data used by the concrete instances below: a provider oracle with
two resolvable cities, a search oracle returning one bucket with one
non-stop and one one-stop itinerary, and a serializer/deserializer pair
standing in for `JSON.stringify` / `JSON.parse` that is concrete at the
empty trip result. -/

def infoBudapest : CityInfo :=
  { entityId := "27539733", flightPlaceType := "CITY", localizedName := "Budapest", skyId := "BUD" }

def infoCorfu : CityInfo :=
  { entityId := "27539477", flightPlaceType := "CITY", localizedName := "Corfu", skyId := "CFU" }

def suggestionFor (info : CityInfo) : SkyScannerSuggestions :=
  ⟨some [⟨some ⟨some info⟩⟩]⟩

/-- Auto-complete oracle: knows Budapest and Corfu, returns an empty
suggestion list for everything else. -/
def sampleSuggest : String → SkyScannerSuggestions := fun name =>
  if name = "Budapest" then suggestionFor infoBudapest
  else if name = "Corfu" then suggestionFor infoCorfu
  else ⟨some []⟩

def sampleLeg : Leg :=
  { carriers := ⟨[⟨"Test Air"⟩]⟩
    arrival := "2025-09-11T08:00:00"
    departure := "2025-09-11T06:00:00"
    origin := ⟨"Budapest"⟩
    destination := ⟨"Corfu"⟩
    stopCount := 0 }

def oneStopLeg : Leg :=
  { carriers := ⟨[⟨"Layover Air"⟩]⟩
    arrival := "2025-09-11T12:00:00"
    departure := "2025-09-11T06:00:00"
    origin := ⟨"Budapest"⟩
    destination := ⟨"Corfu"⟩
    stopCount := 1 }

def sampleItem : Item := ⟨[sampleLeg], ⟨123⟩⟩

def oneStopItem : Item := ⟨[oneStopLeg], ⟨99⟩⟩

/-- Search oracle: one bucket holding a non-stop and a one-stop item. -/
def sampleFlights : SearchParams → SkyScannerFlights := fun _ =>
  ⟨some ⟨some ⟨some [⟨some [sampleItem, oneStopItem]⟩]⟩⟩⟩

/-- Search oracle: one bucket whose `items` field is absent. -/
def noItemsFlights : SearchParams → SkyScannerFlights := fun _ =>
  ⟨some ⟨some ⟨some [⟨none⟩]⟩⟩⟩

/-- Search oracle: only one-stop items, so the non-stop filter drops all. -/
def allStopsFlights : SearchParams → SkyScannerFlights := fun _ =>
  ⟨some ⟨some ⟨some [⟨some [oneStopItem]⟩]⟩⟩⟩

def envOk : Env := ⟨some "test-key"⟩

def envNoKey : Env := ⟨none⟩

def st0 : St := ⟨[], []⟩

def emptyTripResult : TripResult := ⟨[], []⟩

/-- The pretty-printed JSON text of the empty trip result. -/
def emptyTripJson : String := "\x7b\n  \"depart\": [],\n  \"return\": []\n\x7d"

/-- Stand-in for `JSON.stringify (·, null, 2)` on `TripResult`, concrete at
the empty trip result. -/
def serTrip : TripResult → String := fun r =>
  if r = emptyTripResult then emptyTripJson else "<json>"

/-- Stand-in for `JSON.parse` on `TripResult`: succeeds exactly on the
serialization of the empty trip result (`JSON.parse` throws on text such as
`not json`). -/
def parTrip : String → Option TripResult := fun s =>
  if s = emptyTripJson then some emptyTripResult else none

def sampleQuery : FlightQueryOpt :=
  { date := "2025-09-11", origin := "Budapest", destination := "Corfu" }

def sampleTrip : Trip :=
  { depart := some { dates := ["2025-09-11"], origins := ["Budapest"], destinations := ["Corfu"] }
    «return» := none }

/-! Claims about the trip-result cache (`useFileCache`). -/

/-- Claim C1, amended: for every cache key, if the cache file exists, its
content is non-empty after trimming whitespace, *and the content
deserializes successfully*, then `useFileCache` returns the deserialized
content, the compute function is never invoked, and the file system and
process state (in particular the network trace) are untouched. -/
theorem memoize_hit_skips_compute {T : Type} (name : String) (ser : T → String)
    (par : String → Option T) (compute : St → Except Err T × St)
    (fs : List (String × String)) (st : St) (data : String) (v : T)
    (hread : fs.lookup (cachePath name) = some data)
    (hne : jsTrim data ≠ "")
    (hpar : par data = some v) :
    useFileCache name ser par compute fs st = ⟨Except.ok v, fs, st, 0⟩ := by
  have h : readCache par fs name = some v := by
    unfold readCache
    rw [hread]
    simp [hne, hpar]
  unfold useFileCache
  rw [h]

/-- Claim C1, counterexample: the cache file for key `results` exists with
the non-empty (after trimming) content `not json`, on which `JSON.parse`
throws — and `useFileCache` *does* invoke its compute function, refuting
"the compute function is never invoked" for every existing non-empty
blob. -/
theorem memoize_hit_claim_fails_on_unparseable :
    ([(cachePath "results", "not json")].lookup (cachePath "results") = some "not json")
    ∧ jsTrim "not json" ≠ ""
    ∧ (useFileCache "results" serTrip parTrip (fun st => (Except.ok emptyTripResult, st))
        [(cachePath "results", "not json")] st0).computeCalls = 1 :=
  ⟨by decide, by decide, by decide⟩

/-- Claim C1, witness for the amended theorem at a concretely seeded
cache file. -/
theorem memoize_hit_skips_compute_instance :
    ([(cachePath "results", emptyTripJson)].lookup (cachePath "results") = some emptyTripJson
      ∧ jsTrim emptyTripJson ≠ "" ∧ parTrip emptyTripJson = some emptyTripResult)
    ∧ useFileCache "results" serTrip parTrip (fun st => (Except.ok emptyTripResult, st))
        [(cachePath "results", emptyTripJson)] st0
        = ⟨Except.ok emptyTripResult, [(cachePath "results", emptyTripJson)], st0, 0⟩ :=
  ⟨⟨by decide, by decide, by decide⟩,
    memoize_hit_skips_compute "results" serTrip parTrip
      (fun st => (Except.ok emptyTripResult, st)) [(cachePath "results", emptyTripJson)] st0
      emptyTripJson emptyTripResult (by decide) (by decide) (by decide)⟩

/-- Claim C2: with no cache file for the key, `useFileCache` invokes its
compute function exactly once; when the computation succeeds with value
`v`, it writes `serialize v` to the cache file and returns `v`, and an
immediate re-read of the written file — for content that is not
whitespace-only and a deserializer that round-trips at `v`, as
`JSON.stringify` / `JSON.parse` do on a `TripResult` — deserializes to
exactly the returned value. -/
theorem memoize_miss_computes_once_and_roundtrips {T : Type} (name : String)
    (ser : T → String) (par : String → Option T) (compute : St → Except Err T × St)
    (fs : List (String × String)) (st : St)
    (hmiss : fs.lookup (cachePath name) = none) :
    (useFileCache name ser par compute fs st).computeCalls = 1
    ∧ ∀ v st₁, compute st = (Except.ok v, st₁) →
        useFileCache name ser par compute fs st
          = ⟨Except.ok v, (cachePath name, ser v) :: fs, st₁, 1⟩
        ∧ ((cachePath name, ser v) :: fs).lookup (cachePath name) = some (ser v)
        ∧ (jsTrim (ser v) ≠ "" → par (ser v) = some v →
            readCache par ((cachePath name, ser v) :: fs) name = some v) := by
  have h : readCache par fs name = none := by
    unfold readCache
    rw [hmiss]
  constructor
  · unfold useFileCache
    rw [h]
    rcases hc : compute st with ⟨r, st₁⟩
    cases r <;> rfl
  · intro v st₁ hc
    refine ⟨?_, ?_, ?_⟩
    · unfold useFileCache
      rw [h, hc]
    · simp [List.lookup_cons]
    · intro hne hpar
      unfold readCache
      simp [List.lookup_cons, hne, hpar]

/-- Claim C2, witness: a miss on the empty file system, computing the
empty trip result. -/
theorem memoize_miss_computes_once_instance :
    (([] : List (String × String)).lookup (cachePath "results") = none)
    ∧ useFileCache "results" serTrip parTrip (fun st => (Except.ok emptyTripResult, st)) [] st0
        = ⟨Except.ok emptyTripResult, [(cachePath "results", serTrip emptyTripResult)], st0, 1⟩
    ∧ readCache parTrip [(cachePath "results", serTrip emptyTripResult)] "results"
        = some emptyTripResult := by
  have h := memoize_miss_computes_once_and_roundtrips "results" serTrip parTrip
    (fun st => (Except.ok emptyTripResult, st)) [] st0 rfl
  have h2 := h.2 emptyTripResult st0 rfl
  exact ⟨rfl, h2.1, h2.2.2 (by decide) (by decide)⟩

/-- Claim C8: any failure of the cache read — missing file, whitespace-only
content, or content the deserializer rejects — is handled exactly like a
cache miss: the compute function is invoked once, its own outcome (value or
error) is what the caller sees (the read failure is never surfaced), the
process state is the computation's state, and the file is written on
success and left untouched when the computation itself fails. -/
theorem memoize_read_failure_is_cache_miss {T : Type} (name : String)
    (ser : T → String) (par : String → Option T) (compute : St → Except Err T × St)
    (fs : List (String × String)) (st : St)
    (hfail : fs.lookup (cachePath name) = none
      ∨ ∃ data, fs.lookup (cachePath name) = some data
          ∧ (jsTrim data = "" ∨ par data = none)) :
    (useFileCache name ser par compute fs st).computeCalls = 1
    ∧ (useFileCache name ser par compute fs st).result = (compute st).1
    ∧ (useFileCache name ser par compute fs st).st = (compute st).2
    ∧ (∀ v st₁, compute st = (Except.ok v, st₁) →
        (useFileCache name ser par compute fs st).fs = (cachePath name, ser v) :: fs)
    ∧ (∀ e st₁, compute st = (Except.error e, st₁) →
        (useFileCache name ser par compute fs st).fs = fs) := by
  have h : readCache par fs name = none := by
    unfold readCache
    rcases hfail with h0 | ⟨data, hd, hcase⟩
    · rw [h0]
    · rw [hd]
      rcases hcase with he | hp
      · simp [he]
      · by_cases ht : jsTrim data = ""
        · simp [ht]
        · simp [ht, hp]
  refine ⟨?_, ?_, ?_, ?_, ?_⟩
  · unfold useFileCache
    rw [h]
    rcases hc : compute st with ⟨r, st₁⟩
    cases r <;> rfl
  · unfold useFileCache
    rw [h]
    rcases hc : compute st with ⟨r, st₁⟩
    cases r <;> simp [hc]
  · unfold useFileCache
    rw [h]
    rcases hc : compute st with ⟨r, st₁⟩
    cases r <;> simp [hc]
  · intro v st₁ hc
    unfold useFileCache
    rw [h, hc]
  · intro e st₁ hc
    unfold useFileCache
    rw [h, hc]

/-- Claim C8, witness: a whitespace-only cache file is recomputed like a
miss. -/
theorem memoize_read_failure_instance :
    ([(cachePath "results", "  ")].lookup (cachePath "results") = some "  ")
    ∧ jsTrim "  " = ""
    ∧ (useFileCache "results" serTrip parTrip (fun st => (Except.ok emptyTripResult, st))
        [(cachePath "results", "  ")] st0).computeCalls = 1
    ∧ (useFileCache "results" serTrip parTrip (fun st => (Except.ok emptyTripResult, st))
        [(cachePath "results", "  ")] st0).result = Except.ok emptyTripResult := by
  have h := memoize_read_failure_is_cache_miss "results" serTrip parTrip
    (fun st => (Except.ok emptyTripResult, st)) [(cachePath "results", "  ")] st0
    (Or.inr ⟨"  ", by decide, Or.inl (by decide)⟩)
  exact ⟨by decide, by decide, h.1, h.2.1⟩

/-! Claims about the city resolver (`getCityInfo`). -/

/-- An in-memory hit returns the cached descriptor with no work at all. -/
theorem getCityInfo_hit (env : Env) (sp : String → SkyScannerSuggestions)
    (name : String) (st : St) (info : CityInfo)
    (h : st.cityInfo.lookup name = some info) :
    getCityInfo env sp name st = (Except.ok info, st) := by
  unfold getCityInfo
  rw [h]

/-- The fully evaluated miss-and-succeed path of `getCityInfo`. -/
theorem getCityInfo_miss_ok (env : Env) (sp : String → SkyScannerSuggestions)
    (name : String) (st : St) (info : CityInfo)
    (hl : st.cityInfo.lookup name = none)
    (hk : keyMissing env = false)
    (he : extractCityInfo (sp name) = some info) :
    getCityInfo env sp name st
      = (Except.ok info,
          ⟨(name, info) :: st.cityInfo, st.events ++ [ApiCall.autoComplete name]⟩) := by
  unfold getCityInfo fetchAutoComplete
  rw [hl]
  simp [hk, he]

/-- Claim C5: if resolving a name once succeeds, then resolving it again
from the resulting state returns the very same descriptor with the state
unchanged — in particular without contacting the provider — and across the
two resolutions at most one auto-complete lookup (for exactly that name)
was issued. -/
theorem resolver_memoizes (env : Env) (sp : String → SkyScannerSuggestions)
    (name : String) (st : St) (info : CityInfo) (st₁ : St)
    (h : getCityInfo env sp name st = (Except.ok info, st₁)) :
    getCityInfo env sp name st₁ = (Except.ok info, st₁)
    ∧ ∃ extra, st₁.events = st.events ++ extra
        ∧ extra.length ≤ 1
        ∧ ∀ e ∈ extra, e = ApiCall.autoComplete name := by
  rcases hl : st.cityInfo.lookup name with _ | info'
  · by_cases hk : keyMissing env
    · exfalso
      unfold getCityInfo fetchAutoComplete at h
      rw [hl] at h
      simp [hk] at h
    · rcases he : extractCityInfo (sp name) with _ | info''
      · exfalso
        unfold getCityInfo fetchAutoComplete at h
        rw [hl] at h
        simp [hk, he] at h
      · have hk' : keyMissing env = false := by simpa using hk
        have hcomp := getCityInfo_miss_ok env sp name st info'' hl hk' he
        rw [hcomp] at h
        have hinfo : info'' = info := by
          have := congrArg Prod.fst h
          simpa using this
        have hst : st₁ = ⟨(name, info'') :: st.cityInfo, st.events ++ [ApiCall.autoComplete name]⟩ := by
          have := congrArg Prod.snd h
          simpa using this.symm
        subst hinfo
        constructor
        · apply getCityInfo_hit
          rw [hst]
          simp [List.lookup_cons]
        · refine ⟨[ApiCall.autoComplete name], ?_, by simp, by simp⟩
          rw [hst]
  · have hhit := getCityInfo_hit env sp name st info' hl
    rw [hhit] at h
    have hinfo : info' = info := by
      have := congrArg Prod.fst h
      simpa using this
    have hst : st₁ = st := by
      have := congrArg Prod.snd h
      simpa using this.symm
    subst hinfo
    subst hst
    exact ⟨hhit, [], by simp, by simp, by simp⟩

/-- Claim C5, witness: resolving `Budapest` twice against the sample
provider from the empty state. -/
theorem resolver_memoizes_instance :
    getCityInfo envOk sampleSuggest "Budapest" st0
      = (Except.ok infoBudapest,
          ⟨[("Budapest", infoBudapest)], [ApiCall.autoComplete "Budapest"]⟩)
    ∧ getCityInfo envOk sampleSuggest "Budapest"
        ⟨[("Budapest", infoBudapest)], [ApiCall.autoComplete "Budapest"]⟩
      = (Except.ok infoBudapest,
          ⟨[("Budapest", infoBudapest)], [ApiCall.autoComplete "Budapest"]⟩) := by
  have h1 : getCityInfo envOk sampleSuggest "Budapest" st0
      = (Except.ok infoBudapest,
          ⟨[("Budapest", infoBudapest)], [ApiCall.autoComplete "Budapest"]⟩) := by rfl
  exact ⟨h1, (resolver_memoizes envOk sampleSuggest "Budapest" st0 infoBudapest _ h1).1⟩

/-! Claim C10: monotonic growth of the in-memory city mapping. -/

theorem cityPreserved_refl (c : List (String × CityInfo)) : cityPreserved c c :=
  fun _ _ h => h

theorem cityPreserved_trans {a b c : List (String × CityInfo)}
    (h₁ : cityPreserved a b) (h₂ : cityPreserved b c) : cityPreserved a c :=
  fun n i h => h₂ n i (h₁ n i h)

/-- Prepending a binding for a name that is absent preserves every existing
binding. -/
theorem cityPreserved_cons (c : List (String × CityInfo)) (name : String) (info : CityInfo)
    (h : c.lookup name = none) : cityPreserved c ((name, info) :: c) := by
  intro n i hn
  have hne : n ≠ name := by
    intro heq
    rw [heq, h] at hn
    cases hn
  have hb : (n == name) = false := beq_eq_false_iff_ne.mpr hne
  simp [List.lookup_cons, hb, hn]

/-- Resolution via `getCityInfo` leaves the mapping unchanged or prepends one binding for
a previously absent name. -/
theorem getCityInfo_cityInfo (env : Env) (sp : String → SkyScannerSuggestions)
    (name : String) (st : St) :
    ((getCityInfo env sp name st).2).cityInfo = st.cityInfo
    ∨ ∃ cn info, st.cityInfo.lookup cn = none
        ∧ ((getCityInfo env sp name st).2).cityInfo = (cn, info) :: st.cityInfo := by
  rcases hl : st.cityInfo.lookup name with _ | info
  · by_cases hk : keyMissing env = true
    · left
      unfold getCityInfo fetchAutoComplete
      rw [hl]
      simp [hk]
    · have hk' : keyMissing env = false := by simpa using hk
      rcases he : extractCityInfo (sp name) with _ | info
      · left
        unfold getCityInfo fetchAutoComplete
        rw [hl]
        simp [hk', he]
      · right
        rw [getCityInfo_miss_ok env sp name st info hl hk' he]
        exact ⟨name, info, hl, rfl⟩
  · left
    rw [getCityInfo_hit env sp name st info hl]

theorem getCityInfo_preserves (env : Env) (sp : String → SkyScannerSuggestions)
    (name : String) (st : St) :
    cityPreserved st.cityInfo ((getCityInfo env sp name st).2).cityInfo := by
  rcases getCityInfo_cityInfo env sp name st with h | ⟨cn, info, habs, h⟩
  · rw [h]
    exact cityPreserved_refl _
  · rw [h]
    exact cityPreserved_cons _ cn info habs

theorem fetchFlightSearch_cityInfo (env : Env) (fp : SearchParams → SkyScannerFlights)
    (p : SearchParams) (st : St) :
    ((fetchFlightSearch env fp p st).2).cityInfo = st.cityInfo := by
  unfold fetchFlightSearch
  by_cases hk : keyMissing env <;> simp [hk]

theorem getFlights_preserves (env : Env) (sp : String → SkyScannerSuggestions)
    (fp : SearchParams → SkyScannerFlights) (q : FlightQueryOpt) (st : St) :
    cityPreserved st.cityInfo ((getFlights env sp fp q st).2).cityInfo := by
  unfold getFlights
  rcases h₁ : getCityInfo env sp q.origin st with ⟨r₁, st₁⟩
  have p₁ : cityPreserved st.cityInfo st₁.cityInfo := by
    have hp := getCityInfo_preserves env sp q.origin st
    rw [h₁] at hp
    exact hp
  cases r₁ with
  | error e => exact p₁
  | ok originInfo =>
    dsimp only
    rcases h₂ : getCityInfo env sp q.destination st₁ with ⟨r₂, st₂⟩
    have p₂ : cityPreserved st.cityInfo st₂.cityInfo := by
      have hp := getCityInfo_preserves env sp q.destination st₁
      rw [h₂] at hp
      exact cityPreserved_trans p₁ hp
    cases r₂ with
    | error e => exact p₂
    | ok destinationInfo =>
      dsimp only
      rcases h₃ : fetchFlightSearch env fp
          { date := q.date
            origin := originInfo.skyId
            originId := originInfo.entityId
            destination := destinationInfo.skyId
            destinationId := destinationInfo.entityId } st₂ with ⟨r₃, st₃⟩
      have p₃ : cityPreserved st.cityInfo st₃.cityInfo := by
        have hc := fetchFlightSearch_cityInfo env fp
          { date := q.date
            origin := originInfo.skyId
            originId := originInfo.entityId
            destination := destinationInfo.skyId
            destinationId := destinationInfo.entityId } st₂
        rw [h₃] at hc
        rw [hc]
        exact p₂
      cases r₃ with
      | error e => exact p₃
      | ok result =>
        dsimp only
        rcases firstBucket result with _ | bucket
        · exact p₃
        · dsimp only
          rcases bucket.items with _ | items
          · exact p₃
          · exact p₃

theorem loopDates_preserves (env : Env) (sp : String → SkyScannerSuggestions)
    (fp : SearchParams → SkyScannerFlights) (origin destination : String) :
    ∀ (dates : List String) (st : St),
      cityPreserved st.cityInfo ((loopDates env sp fp origin destination dates st).2).cityInfo := by
  intro dates
  induction dates with
  | nil => intro st; exact cityPreserved_refl _
  | cons d ds ih =>
    intro st
    unfold loopDates
    rcases h₁ : getFlights env sp fp { date := d, origin := origin, destination := destination } st
      with ⟨r₁, st₁⟩
    have p₁ : cityPreserved st.cityInfo st₁.cityInfo := by
      have hp := getFlights_preserves env sp fp
        { date := d, origin := origin, destination := destination } st
      rw [h₁] at hp
      exact hp
    cases r₁ with
    | error e => exact p₁
    | ok rs =>
      dsimp only
      rcases h₂ : loopDates env sp fp origin destination ds st₁ with ⟨r₂, st₂⟩
      have p₂ : cityPreserved st.cityInfo st₂.cityInfo := by
        have hp := ih st₁
        rw [h₂] at hp
        exact cityPreserved_trans p₁ hp
      cases r₂ with
      | error e => exact p₂
      | ok rs₁ => exact p₂

theorem loopDestinations_preserves (env : Env) (sp : String → SkyScannerSuggestions)
    (fp : SearchParams → SkyScannerFlights) (origin : String) :
    ∀ (destinations dates : List String) (st : St),
      cityPreserved st.cityInfo
        ((loopDestinations env sp fp origin destinations dates st).2).cityInfo := by
  intro destinations
  induction destinations with
  | nil => intro dates st; exact cityPreserved_refl _
  | cons d ds ih =>
    intro dates st
    unfold loopDestinations
    rcases h₁ : loopDates env sp fp origin d dates st with ⟨r₁, st₁⟩
    have p₁ : cityPreserved st.cityInfo st₁.cityInfo := by
      have hp := loopDates_preserves env sp fp origin d dates st
      rw [h₁] at hp
      exact hp
    cases r₁ with
    | error e => exact p₁
    | ok rs =>
      dsimp only
      rcases h₂ : loopDestinations env sp fp origin ds dates st₁ with ⟨r₂, st₂⟩
      have p₂ : cityPreserved st.cityInfo st₂.cityInfo := by
        have hp := ih dates st₁
        rw [h₂] at hp
        exact cityPreserved_trans p₁ hp
      cases r₂ with
      | error e => exact p₂
      | ok rs₁ => exact p₂

theorem loopOrigins_preserves (env : Env) (sp : String → SkyScannerSuggestions)
    (fp : SearchParams → SkyScannerFlights) :
    ∀ (origins destinations dates : List String) (st : St),
      cityPreserved st.cityInfo
        ((loopOrigins env sp fp origins destinations dates st).2).cityInfo := by
  intro origins
  induction origins with
  | nil => intro destinations dates st; exact cityPreserved_refl _
  | cons o os ih =>
    intro destinations dates st
    unfold loopOrigins
    rcases h₁ : loopDestinations env sp fp o destinations dates st with ⟨r₁, st₁⟩
    have p₁ : cityPreserved st.cityInfo st₁.cityInfo := by
      have hp := loopDestinations_preserves env sp fp o destinations dates st
      rw [h₁] at hp
      exact hp
    cases r₁ with
    | error e => exact p₁
    | ok rs =>
      dsimp only
      rcases h₂ : loopOrigins env sp fp os destinations dates st₁ with ⟨r₂, st₂⟩
      have p₂ : cityPreserved st.cityInfo st₂.cityInfo := by
        have hp := ih destinations dates st₁
        rw [h₂] at hp
        exact cityPreserved_trans p₁ hp
      cases r₂ with
      | error e => exact p₂
      | ok rs₁ => exact p₂

theorem getFlightResults_preserves (env : Env) (sp : String → SkyScannerSuggestions)
    (fp : SearchParams → SkyScannerFlights) (trip : Trip) (ty : LegType) (st : St) :
    cityPreserved st.cityInfo ((getFlightResults env sp fp trip ty st).2).cityInfo := by
  unfold getFlightResults
  rcases trip.leg ty with _ | leg
  · exact cityPreserved_refl _
  · exact loopOrigins_preserves env sp fp leg.origins leg.destinations leg.dates st

theorem tripCompute_preserves (env : Env) (sp : String → SkyScannerSuggestions)
    (fp : SearchParams → SkyScannerFlights) (trip : Trip) (st : St) :
    cityPreserved st.cityInfo ((tripCompute env sp fp trip st).2).cityInfo := by
  unfold tripCompute
  rcases h₁ : getFlightResults env sp fp trip LegType.depart st with ⟨r₁, st₁⟩
  have p₁ : cityPreserved st.cityInfo st₁.cityInfo := by
    have hp := getFlightResults_preserves env sp fp trip LegType.depart st
    rw [h₁] at hp
    exact hp
  cases r₁ with
  | error e => exact p₁
  | ok depart =>
    dsimp only
    rcases h₂ : getFlightResults env sp fp trip LegType.«return» st₁ with ⟨r₂, st₂⟩
    have p₂ : cityPreserved st.cityInfo st₂.cityInfo := by
      have hp := getFlightResults_preserves env sp fp trip LegType.«return» st₁
      rw [h₂] at hp
      exact cityPreserved_trans p₁ hp
    cases r₂ with
    | error e => exact p₂
    | ok ret => exact p₂

theorem mainRun_preserves (env : Env) (sp : String → SkyScannerSuggestions)
    (fp : SearchParams → SkyScannerFlights) (ser : TripResult → String)
    (par : String → Option TripResult) (trip : Trip)
    (fs : List (String × String)) (st : St) :
    cityPreserved st.cityInfo ((mainRun env sp fp ser par trip fs st).st).cityInfo := by
  unfold mainRun useFileCache
  rcases readCache par fs "results" with _ | v
  · rcases h₁ : tripCompute env sp fp trip st with ⟨r₁, st₁⟩
    have p₁ : cityPreserved st.cityInfo st₁.cityInfo := by
      have hp := tripCompute_preserves env sp fp trip st
      rw [h₁] at hp
      exact hp
    cases r₁ with
    | error e => exact p₁
    | ok v => exact p₁
  · exact cityPreserved_refl _

/-- Claim C10: the in-memory city mapping grows monotonically.  A single
resolution either leaves the mapping unchanged or prepends a binding for a
previously unmapped name, and every pipeline operation — one search, a
whole leg collection, the full cached run — preserves every existing
name→descriptor binding unchanged. -/
theorem city_mapping_monotone :
    (∀ env sp name st,
        cityPreserved st.cityInfo ((getCityInfo env sp name st).2).cityInfo
        ∧ (((getCityInfo env sp name st).2).cityInfo = st.cityInfo
            ∨ ∃ cn info, st.cityInfo.lookup cn = none
                ∧ ((getCityInfo env sp name st).2).cityInfo = (cn, info) :: st.cityInfo))
    ∧ (∀ env sp fp q st,
        cityPreserved st.cityInfo ((getFlights env sp fp q st).2).cityInfo)
    ∧ (∀ env sp fp trip ty st,
        cityPreserved st.cityInfo ((getFlightResults env sp fp trip ty st).2).cityInfo)
    ∧ (∀ env sp fp ser par trip fs st,
        cityPreserved st.cityInfo ((mainRun env sp fp ser par trip fs st).st).cityInfo) :=
  ⟨fun env sp name st =>
      ⟨getCityInfo_preserves env sp name st, getCityInfo_cityInfo env sp name st⟩,
    fun env sp fp q st => getFlights_preserves env sp fp q st,
    fun env sp fp trip ty st => getFlightResults_preserves env sp fp trip ty st,
    fun env sp fp ser par trip fs st => mainRun_preserves env sp fp ser par trip fs st⟩

/-- Claim C10, witness: a concrete existing binding survives a full
`getFlights` call that also resolves a second city. -/
theorem city_mapping_monotone_instance :
    ([("Budapest", infoBudapest)].lookup "Budapest" = some infoBudapest)
    ∧ (((getFlights envOk sampleSuggest sampleFlights sampleQuery
          ⟨[("Budapest", infoBudapest)], []⟩).2).cityInfo.lookup "Budapest"
        = some infoBudapest) :=
  ⟨rfl,
    city_mapping_monotone.2.1 envOk sampleSuggest sampleFlights sampleQuery
      ⟨[("Budapest", infoBudapest)], []⟩ "Budapest" infoBudapest rfl⟩

/-! Claim C3: an unresolved city aborts the whole run. -/

/-- The events `getCityInfo` may add are auto-complete lookups only. -/
theorem getCityInfo_events (env : Env) (sp : String → SkyScannerSuggestions)
    (name : String) (st : St) :
    ∃ extra, ((getCityInfo env sp name st).2).events = st.events ++ extra
      ∧ ∀ e ∈ extra, e.isSearch = false := by
  rcases hl : st.cityInfo.lookup name with _ | info
  · by_cases hk : keyMissing env = true
    · refine ⟨[], ?_, by simp⟩
      unfold getCityInfo fetchAutoComplete
      rw [hl]
      simp [hk]
    · have hk' : keyMissing env = false := by simpa using hk
      rcases he : extractCityInfo (sp name) with _ | info
      · refine ⟨[ApiCall.autoComplete name], ?_, ?_⟩
        · unfold getCityInfo fetchAutoComplete
          rw [hl]
          simp [hk', he]
        · intro e he'
          simp at he'
          subst he'
          rfl
      · refine ⟨[ApiCall.autoComplete name], ?_, ?_⟩
        · rw [getCityInfo_miss_ok env sp name st info hl hk' he]
        · intro e he'
          simp at he'
          subst he'
          rfl
  · refine ⟨[], ?_, by simp⟩
    rw [getCityInfo_hit env sp name st info hl]
    simp

/-- The `forEach` body (`buildResults`) can only fail with the `legs` dereference error. -/
theorem buildResults_error (opt : FlightQueryOpt) (oi di : CityInfo) :
    ∀ (items : List Item) (e : Err),
      buildResults opt oi di items = Except.error e → e = Err.typeError "legs" := by
  intro items
  induction items with
  | nil => intro e h; simp [buildResults] at h
  | cons flight rest ih =>
    intro e h
    unfold buildResults at h
    rcases hleg : flight.legs.head? with _ | data
    · rw [hleg] at h
      injection h with h
      exact h.symm
    · rw [hleg] at h
      rcases hrest : buildResults opt oi di rest with e' | rs
      · rw [hrest] at h
        injection h with h
        subst h
        exact ih e' hrest
      · rw [hrest] at h
        cases h

/-- A throwing flight-search fetch can only be the missing-key error. -/
theorem fetchFlightSearch_error (env : Env) (fp : SearchParams → SkyScannerFlights)
    (p : SearchParams) (st : St) (e : Err) (st' : St)
    (h : fetchFlightSearch env fp p st = (Except.error e, st')) :
    e = Err.missingCredential ∧ st' = st := by
  unfold fetchFlightSearch at h
  by_cases hk : keyMissing env
  · rw [if_pos hk] at h
    injection h with h1 h2
    injection h1 with h1
    exact ⟨h1.symm, h2.symm⟩
  · rw [if_neg hk] at h
    injection h with h1 h2
    cases h1

/-- When `getFlights` throws the unresolved-city error, the events it added
to the trace contain no flight-search call: the query's own search (and a
fortiori any later query's search) was never issued. -/
theorem getFlights_unknownCity_no_search (env : Env) (sp : String → SkyScannerSuggestions)
    (fp : SearchParams → SkyScannerFlights) (q : FlightQueryOpt) (st : St)
    (cityName : String) (st₂ : St)
    (h : getFlights env sp fp q st = (Except.error (Err.unknownCity cityName), st₂)) :
    ∃ extra, st₂.events = st.events ++ extra ∧ ∀ e ∈ extra, e.isSearch = false := by
  unfold getFlights at h
  rcases h₁ : getCityInfo env sp q.origin st with ⟨r₁, st₁⟩
  obtain ⟨extra₁, he₁, hs₁⟩ := getCityInfo_events env sp q.origin st
  rw [h₁] at h he₁
  cases r₁ with
  | error e =>
    injection h with hh1 hh2
    subst hh2
    exact ⟨extra₁, he₁, hs₁⟩
  | ok originInfo =>
    dsimp only at h
    rcases h₂ : getCityInfo env sp q.destination st₁ with ⟨r₂, st₂'⟩
    obtain ⟨extra₂, he₂, hs₂⟩ := getCityInfo_events env sp q.destination st₁
    rw [h₂] at h he₂
    cases r₂ with
    | error e =>
      injection h with hh1 hh2
      subst hh2
      refine ⟨extra₁ ++ extra₂, ?_, ?_⟩
      · rw [he₂, he₁, List.append_assoc]
      · intro e' he'
        rcases List.mem_append.mp he' with hm | hm
        · exact hs₁ e' hm
        · exact hs₂ e' hm
    | ok destinationInfo =>
      dsimp only at h
      rcases h₃ : fetchFlightSearch env fp
          { date := q.date
            origin := originInfo.skyId
            originId := originInfo.entityId
            destination := destinationInfo.skyId
            destinationId := destinationInfo.entityId } st₂' with ⟨r₃, st₃⟩
      rw [h₃] at h
      cases r₃ with
      | error e =>
        obtain ⟨hmc, _⟩ := fetchFlightSearch_error env fp _ st₂' e st₃ h₃
        subst hmc
        injection h with hh1 hh2
        cases hh1
      | ok result =>
        dsimp only at h
        rcases hb : firstBucket result with _ | bucket
        · rw [hb] at h
          simp at h
        · rw [hb] at h
          dsimp only at h
          rcases hi : bucket.items with _ | items
          · rw [hi] at h
            simp at h
          · rw [hi] at h
            dsimp only at h
            have hb2 := congrArg Prod.fst h
            dsimp at hb2
            have hbe := buildResults_error q originInfo destinationInfo
              (items.filter nonStop) (Err.unknownCity cityName) hb2
            cases hbe

/-- Claim C3: if city resolution fails for a query, the sequential search
loop starting at that query aborts immediately with the unresolved-city
error — later queries are never reached, and the events recorded while the
failing query ran contain no flight-search call.  Moreover, whenever the
cached run fails with any error, nothing at all is written to the file
system. -/
theorem unresolved_city_aborts_run (env : Env) (sp : String → SkyScannerSuggestions)
    (fp : SearchParams → SkyScannerFlights) (q : FlightQueryOpt)
    (rest : List FlightQueryOpt) (st st₂ : St) (cityName : String)
    (h : getFlights env sp fp q st = (Except.error (Err.unknownCity cityName), st₂)) :
    searchLoop env sp fp (q :: rest) st = (Except.error (Err.unknownCity cityName), st₂)
    ∧ (∃ extra, st₂.events = st.events ++ extra ∧ ∀ e ∈ extra, e.isSearch = false)
    ∧ (∀ ser par trip fs st₀ e,
        (mainRun env sp fp ser par trip fs st₀).result = Except.error e →
        (mainRun env sp fp ser par trip fs st₀).fs = fs) := by
  refine ⟨?_, getFlights_unknownCity_no_search env sp fp q st cityName st₂ h, ?_⟩
  · unfold searchLoop
    rw [h]
  · intro ser par trip fs st₀ e hm
    unfold mainRun useFileCache at hm ⊢
    rcases hrc : readCache par fs "results" with _ | v
    case none =>
      rw [hrc] at hm
      dsimp only at hm ⊢
      rcases hc : tripCompute env sp fp trip st₀ with ⟨r, st'⟩
      rw [hc] at hm
      cases r with
      | error e' => rfl
      | ok v => simp at hm
    case some =>
      rw [hrc] at hm

/-- Claim C3, witness: the sample provider has no suggestion for
`Nowhereland`; the loop aborts on its first query and the second query is
never searched. -/
theorem unresolved_city_aborts_run_instance :
    getFlights envOk sampleSuggest sampleFlights
        { date := "2025-09-11", origin := "Nowhereland", destination := "Corfu" } st0
      = (Except.error (Err.unknownCity "Nowhereland"),
          ⟨[], [ApiCall.autoComplete "Nowhereland"]⟩)
    ∧ searchLoop envOk sampleSuggest sampleFlights
        [{ date := "2025-09-11", origin := "Nowhereland", destination := "Corfu" },
         { date := "2025-09-12", origin := "Budapest", destination := "Corfu" }] st0
      = (Except.error (Err.unknownCity "Nowhereland"),
          ⟨[], [ApiCall.autoComplete "Nowhereland"]⟩) := by
  have h : getFlights envOk sampleSuggest sampleFlights
      { date := "2025-09-11", origin := "Nowhereland", destination := "Corfu" } st0
      = (Except.error (Err.unknownCity "Nowhereland"),
          ⟨[], [ApiCall.autoComplete "Nowhereland"]⟩) := by rfl
  exact ⟨h,
    (unresolved_city_aborts_run envOk sampleSuggest sampleFlights _
      [{ date := "2025-09-12", origin := "Budapest", destination := "Corfu" }]
      st0 _ "Nowhereland" h).1⟩

/-! Claim C6: the query expansion order and the nested loops. -/

theorem searchLoop_append (env : Env) (sp : String → SkyScannerSuggestions)
    (fp : SearchParams → SkyScannerFlights) (a b : List FlightQueryOpt) :
    ∀ st : St, searchLoop env sp fp (a ++ b) st
      = seqResults (searchLoop env sp fp a st) (searchLoop env sp fp b) := by
  induction a with
  | nil =>
    intro st
    rw [List.nil_append]
    unfold seqResults
    dsimp only [searchLoop]
    rcases h : searchLoop env sp fp b st with ⟨r, st₁⟩
    cases r with
    | error e => rfl
    | ok rs => simp
  | cons q qs ih =>
    intro st
    rw [List.cons_append]
    unfold searchLoop seqResults
    rcases h₁ : getFlights env sp fp q st with ⟨r₁, st₁⟩
    cases r₁ with
    | error e => rfl
    | ok rs =>
      dsimp only
      rw [ih st₁]
      unfold seqResults
      rcases h₂ : searchLoop env sp fp qs st₁ with ⟨r₂, st₂⟩
      cases r₂ with
      | error e => rfl
      | ok rs₁ =>
        dsimp only
        rcases h₃ : searchLoop env sp fp b st₂ with ⟨r₃, st₃⟩
        cases r₃ with
        | error e => rfl
        | ok rs₂ =>
          dsimp only
          rw [List.append_assoc]

/-- The innermost date loop is the search loop over the date-mapped
queries. -/
theorem loopDates_eq_searchLoop (env : Env) (sp : String → SkyScannerSuggestions)
    (fp : SearchParams → SkyScannerFlights) (origin destination : String) :
    ∀ (dates : List String) (st : St),
      loopDates env sp fp origin destination dates st
        = searchLoop env sp fp
            (dates.map fun date =>
              { date := date, origin := origin, destination := destination }) st := by
  intro dates
  induction dates with
  | nil => intro st; rfl
  | cons d ds ih =>
    intro st
    rw [List.map_cons]
    unfold loopDates searchLoop
    rcases h₁ : getFlights env sp fp { date := d, origin := origin, destination := destination } st
      with ⟨r₁, st₁⟩
    cases r₁ with
    | error e => rfl
    | ok rs =>
      dsimp only
      rw [ih st₁]

/-- The middle destination loop is the search loop over the flattened
destination × date queries. -/
theorem loopDestinations_eq_searchLoop (env : Env) (sp : String → SkyScannerSuggestions)
    (fp : SearchParams → SkyScannerFlights) (origin : String) :
    ∀ (destinations dates : List String) (st : St),
      loopDestinations env sp fp origin destinations dates st
        = searchLoop env sp fp
            (destinations.flatMap fun destination =>
              dates.map fun date =>
                { date := date, origin := origin, destination := destination }) st := by
  intro destinations
  induction destinations with
  | nil => intro dates st; rfl
  | cons d ds ih =>
    intro dates st
    rw [List.flatMap_cons, searchLoop_append]
    unfold loopDestinations seqResults
    rw [← loopDates_eq_searchLoop env sp fp origin d dates]
    rcases h₁ : loopDates env sp fp origin d dates st with ⟨r₁, st₁⟩
    cases r₁ with
    | error e => rfl
    | ok rs =>
      dsimp only
      rw [ih dates st₁]

/-- The outer origin loop is the search loop over the full cross product. -/
theorem loopOrigins_eq_searchLoop (env : Env) (sp : String → SkyScannerSuggestions)
    (fp : SearchParams → SkyScannerFlights) :
    ∀ (origins destinations dates : List String) (st : St),
      loopOrigins env sp fp origins destinations dates st
        = searchLoop env sp fp
            (origins.flatMap fun origin =>
              destinations.flatMap fun destination =>
                dates.map fun date =>
                  { date := date, origin := origin, destination := destination }) st := by
  intro origins
  induction origins with
  | nil => intro destinations dates st; rfl
  | cons o os ih =>
    intro destinations dates st
    rw [List.flatMap_cons, searchLoop_append]
    unfold loopOrigins seqResults
    rw [← loopDestinations_eq_searchLoop env sp fp o destinations dates]
    rcases h₁ : loopDestinations env sp fp o destinations dates st with ⟨r₁, st₁⟩
    cases r₁ with
    | error e => rfl
    | ok rs =>
      dsimp only
      rw [ih destinations dates st₁]

/-- Theorem: `getFlightResults` processes exactly the queries of `expand`, in
order, concatenating per-query results. -/
theorem getFlightResults_eq_searchLoop (env : Env) (sp : String → SkyScannerSuggestions)
    (fp : SearchParams → SkyScannerFlights) (trip : Trip) (ty : LegType) (st : St) :
    getFlightResults env sp fp trip ty st
      = searchLoop env sp fp (expand (trip.leg ty)) st := by
  unfold getFlightResults expand
  rcases trip.leg ty with _ | leg
  · rfl
  · exact loopOrigins_eq_searchLoop env sp fp leg.origins leg.destinations leg.dates st

/-- Sum of a constant over a list. -/
theorem sum_map_const {α : Type} (l : List α) (c : Nat) :
    (l.map fun _ => c).sum = l.length * c := by
  induction l with
  | nil => simp
  | cons x xs ih => simp [ih, Nat.succ_mul, Nat.add_comm]

/-- Length of a flat map whose pieces all have the same length. -/
theorem length_flatMap_const {α β : Type} (f : α → List β) (c : Nat)
    (hc : ∀ a, (f a).length = c) (l : List α) :
    (l.flatMap f).length = l.length * c := by
  rw [List.length_flatMap]
  have hmap : List.map (List.length ∘ f) l = List.map (fun _ => c) l :=
    List.map_congr_left (fun a _ => hc a)
  rw [hmap]
  exact sum_map_const l c

/-- Indexing into a flat map whose pieces all have the same length `c`:
position `i * c + j` lands at offset `j` of the `i`-th piece. -/
theorem getElem?_flatMap_const {α β : Type} (f : α → List β) (c : Nat)
    (hc : ∀ a, (f a).length = c) :
    ∀ (l : List α) (i j : Nat), j < c → ∀ a, l[i]? = some a →
      (l.flatMap f)[i * c + j]? = (f a)[j]? := by
  intro l
  induction l with
  | nil => intro i j hj a ha; simp at ha
  | cons x xs ih =>
    intro i j hj a ha
    cases i with
    | zero =>
      rw [List.getElem?_cons_zero] at ha
      injection ha with ha
      subst ha
      rw [List.flatMap_cons, Nat.zero_mul, Nat.zero_add]
      exact List.getElem?_append_left (by rw [hc]; exact hj)
    | succ i =>
      rw [List.getElem?_cons_succ] at ha
      rw [List.flatMap_cons]
      have hlen : (f x).length ≤ (i + 1) * c + j := by
        rw [hc]
        calc c ≤ (i + 1) * c := Nat.le_mul_of_pos_left c (Nat.succ_pos i)
          _ ≤ (i + 1) * c + j := Nat.le_add_right _ _
      rw [List.getElem?_append_right hlen, hc]
      have harith : (i + 1) * c + j - c = i * c + j := by
        rw [Nat.succ_mul]
        omega
      rw [harith]
      exact ih i j hj a ha

/-- Claim C6: an absent leg expands to the empty sequence; a present leg
expands to exactly `|origins| · |destinations| · |dates|` query tuples,
ordered with origin outermost, destination middle and date innermost
(the tuple at flat position `(i·|destinations| + j)·|dates| + k` is
`(origins[i], destinations[j], dates[k])`); and `getFlightResults` runs the
searches exactly in this expansion order, concatenating the per-query
results in the same order. -/
theorem expander_cross_product (leg : FlightQuery) :
    expand none = []
    ∧ (expand (some leg)).length
        = leg.origins.length * leg.destinations.length * leg.dates.length
    ∧ (∀ i j k o d t, leg.origins[i]? = some o → leg.destinations[j]? = some d →
        leg.dates[k]? = some t →
        (expand (some leg))[(i * leg.destinations.length + j) * leg.dates.length + k]?
          = some { date := t, origin := o, destination := d })
    ∧ (∀ env sp fp trip ty st,
        getFlightResults env sp fp trip ty st
          = searchLoop env sp fp (expand (trip.leg ty)) st) := by
  have hinner : ∀ o : String,
      ((leg.destinations.flatMap fun destination =>
          leg.dates.map fun date =>
            ({ date := date, origin := o, destination := destination } : FlightQueryOpt)).length)
        = leg.destinations.length * leg.dates.length := by
    intro o
    exact length_flatMap_const _ _ (fun d => by rw [List.length_map]) _
  refine ⟨rfl, ?_, ?_, fun env sp fp trip ty st => getFlightResults_eq_searchLoop env sp fp trip ty st⟩
  · show (leg.origins.flatMap _).length = _
    rw [length_flatMap_const _ (leg.destinations.length * leg.dates.length) hinner leg.origins]
    rw [Nat.mul_assoc]
  · intro i j k o d t ho hd ht
    have hj : j < leg.destinations.length := by
      rcases List.getElem?_eq_some.mp hd with ⟨h, _⟩
      exact h
    have hk : k < leg.dates.length := by
      rcases List.getElem?_eq_some.mp ht with ⟨h, _⟩
      exact h
    have hjk : j * leg.dates.length + k < leg.destinations.length * leg.dates.length := by
      calc j * leg.dates.length + k
          < j * leg.dates.length + leg.dates.length := by omega
        _ = (j + 1) * leg.dates.length := by rw [Nat.succ_mul]
        _ ≤ leg.destinations.length * leg.dates.length :=
            Nat.mul_le_mul_right _ (by omega)
    have harith : (i * leg.destinations.length + j) * leg.dates.length + k
        = i * (leg.destinations.length * leg.dates.length) + (j * leg.dates.length + k) := by
      ring
    show (leg.origins.flatMap _)[_]? = _
    rw [harith]
    rw [getElem?_flatMap_const _ (leg.destinations.length * leg.dates.length) hinner
      leg.origins i (j * leg.dates.length + k) hjk o ho]
    rw [getElem?_flatMap_const _ leg.dates.length (fun d' => by rw [List.length_map])
      leg.destinations j k hk d hd]
    rw [List.getElem?_map, ht]
    rfl

/-- Claim C6, witness: a two-origin, one-destination, two-date leg expands
to four ordered tuples and the middle position checks out. -/
theorem expander_cross_product_instance :
    (expand (some { dates := ["2025-09-11", "2025-09-12"]
                    origins := ["Budapest", "Berlin"]
                    destinations := ["Corfu"] })).length = 2 * 1 * 2
    ∧ (["Budapest", "Berlin"][1]? = some "Berlin")
    ∧ (["Corfu"][0]? = some "Corfu")
    ∧ (["2025-09-11", "2025-09-12"][1]? = some "2025-09-12")
    ∧ (expand (some { dates := ["2025-09-11", "2025-09-12"]
                      origins := ["Budapest", "Berlin"]
                      destinations := ["Corfu"] }))[(1 * 1 + 0) * 2 + 1]?
        = some { date := "2025-09-12", origin := "Berlin", destination := "Corfu" } := by
  have h := expander_cross_product
    { dates := ["2025-09-11", "2025-09-12"]
      origins := ["Budapest", "Berlin"]
      destinations := ["Corfu"] }
  exact ⟨h.2.1, rfl, rfl, rfl, h.2.2.1 1 0 1 "Berlin" "Corfu" "2025-09-12" rfl rfl rfl⟩

/-! Claim C4: behaviour when the API key is absent. -/

/-- With a falsy API key, one search query fails with the
missing-credential error before any network call, leaving the state
untouched (resolution may still be served from the in-memory mapping, but
the search fetch itself always throws first). -/
theorem getFlights_keyMissing (env : Env) (sp : String → SkyScannerSuggestions)
    (fp : SearchParams → SkyScannerFlights) (q : FlightQueryOpt) (st : St)
    (hk : keyMissing env = true) :
    getFlights env sp fp q st = (Except.error Err.missingCredential, st) := by
  have hcity : ∀ name, getCityInfo env sp name st = (Except.error Err.missingCredential, st)
      ∨ ∃ info, getCityInfo env sp name st = (Except.ok info, st) := by
    intro name
    rcases hl : st.cityInfo.lookup name with _ | info
    · left
      unfold getCityInfo fetchAutoComplete
      rw [hl]
      simp [hk]
    · right
      exact ⟨info, getCityInfo_hit env sp name st info hl⟩
  unfold getFlights
  rcases hcity q.origin with h₁ | ⟨oi, h₁⟩
  · rw [h₁]
  · rw [h₁]
    dsimp only
    rcases hcity q.destination with h₂ | ⟨di, h₂⟩
    · rw [h₂]
    · rw [h₂]
      dsimp only
      unfold fetchFlightSearch
      simp [hk]

/-- With a falsy API key, a non-empty search loop fails immediately. -/
theorem searchLoop_keyMissing (env : Env) (sp : String → SkyScannerSuggestions)
    (fp : SearchParams → SkyScannerFlights) (q : FlightQueryOpt)
    (qs : List FlightQueryOpt) (st : St) (hk : keyMissing env = true) :
    searchLoop env sp fp (q :: qs) st = (Except.error Err.missingCredential, st) := by
  unfold searchLoop
  rw [getFlights_keyMissing env sp fp q st hk]

/-- With a falsy API key and at least one expanded query, the whole trip
computation fails with the missing-credential error, state untouched. -/
theorem tripCompute_keyMissing (env : Env) (sp : String → SkyScannerSuggestions)
    (fp : SearchParams → SkyScannerFlights) (trip : Trip) (st : St)
    (hk : keyMissing env = true)
    (hq : expand (trip.leg LegType.depart) ++ expand (trip.leg LegType.«return») ≠ []) :
    tripCompute env sp fp trip st = (Except.error Err.missingCredential, st) := by
  unfold tripCompute
  rcases hd : expand (trip.leg LegType.depart) with _ | ⟨q, qs⟩
  · have h₁ : getFlightResults env sp fp trip LegType.depart st = (Except.ok [], st) := by
      rw [getFlightResults_eq_searchLoop, hd]
      rfl
    rw [h₁]
    dsimp only
    rcases hr : expand (trip.leg LegType.«return») with _ | ⟨q', qs'⟩
    · exfalso
      apply hq
      rw [hd, hr]
      rfl
    · have h₂ : getFlightResults env sp fp trip LegType.«return» st
          = (Except.error Err.missingCredential, st) := by
        rw [getFlightResults_eq_searchLoop, hr]
        exact searchLoop_keyMissing env sp fp q' qs' st hk
      rw [h₂]
  · have h₁ : getFlightResults env sp fp trip LegType.depart st
        = (Except.error Err.missingCredential, st) := by
      rw [getFlightResults_eq_searchLoop, hd]
      exact searchLoop_keyMissing env sp fp q qs st hk
    rw [h₁]

/-- Claim C4, amended: if the API key is absent (or empty), then in every
run whose cache read does not produce a hit and whose trip expands to at
least one query, the run fails with the missing-credential error at the
first provider call — before any network request is issued (the event
trace is unchanged) and with nothing written to the cache file.  (The
check lives inside the fetch helper, not at startup: a warm cache bypasses
it entirely, see the counterexample.) -/
theorem missing_key_fails_before_any_network_call (env : Env)
    (sp : String → SkyScannerSuggestions) (fp : SearchParams → SkyScannerFlights)
    (ser : TripResult → String) (par : String → Option TripResult) (trip : Trip)
    (fs : List (String × String)) (st : St)
    (hk : keyMissing env = true)
    (hmiss : readCache par fs "results" = none)
    (hq : expand (trip.leg LegType.depart) ++ expand (trip.leg LegType.«return») ≠ []) :
    mainRun env sp fp ser par trip fs st
      = ⟨Except.error Err.missingCredential, fs, st, 1⟩ := by
  unfold mainRun useFileCache
  rw [hmiss, tripCompute_keyMissing env sp fp trip st hk hq]

/-- Claim C4, counterexample: the API key is absent, yet with a warm cache
the run returns the cached trip result with no error at all — no
missing-credential failure happens "at startup, regardless of cache
state"; zero compute calls and zero network calls are made. -/
theorem missing_key_claim_fails_with_warm_cache :
    keyMissing envNoKey = true
    ∧ mainRun envNoKey sampleSuggest sampleFlights serTrip parTrip sampleTrip
        [(cachePath "results", emptyTripJson)] st0
      = ⟨Except.ok emptyTripResult, [(cachePath "results", emptyTripJson)], st0, 0⟩ :=
  ⟨rfl, rfl⟩

/-- Claim C4, witness for the amended theorem: no key, empty file system,
one-query trip. -/
theorem missing_key_fails_instance :
    (keyMissing envNoKey = true
      ∧ readCache parTrip [] "results" = none
      ∧ expand (sampleTrip.leg LegType.depart) ++ expand (sampleTrip.leg LegType.«return») ≠ [])
    ∧ mainRun envNoKey sampleSuggest sampleFlights serTrip parTrip sampleTrip [] st0
      = ⟨Except.error Err.missingCredential, [], st0, 1⟩ :=
  ⟨⟨rfl, rfl, by decide⟩,
    missing_key_fails_before_any_network_call envNoKey sampleSuggest sampleFlights
      serTrip parTrip sampleTrip [] st0 rfl rfl (by decide)⟩

/-! Claims C7 and C9: the non-stop filter and the leg dereferences. -/

/-- An item passing the `legs[0]?.stopCount === 0` filter has a first leg,
and that leg has zero stops. -/
theorem nonStop_head (it : Item) (h : nonStop it = true) :
    ∃ leg, it.legs.head? = some leg ∧ leg.stopCount = 0 := by
  unfold nonStop at h
  rcases hl : it.legs.head? with _ | leg
  · rw [hl] at h
    simp at h
  · rw [hl] at h
    simp at h
    exact ⟨leg, rfl, h⟩

/-- On a list of filter-passing items, the `forEach` body never hits an
absent first leg: it succeeds, and every produced `FlightResult` is the
normalization of some item's zero-stop first leg. -/
theorem buildResults_ok_mem (opt : FlightQueryOpt) (oi di : CityInfo) :
    ∀ items : List Item, (∀ it ∈ items, nonStop it = true) →
      ∃ rs, buildResults opt oi di items = Except.ok rs
        ∧ ∀ r ∈ rs, ∃ it ∈ items, ∃ leg, it.legs.head? = some leg ∧ leg.stopCount = 0
            ∧ r = { date := opt.date
                    origin := leg.origin.name
                    destination := leg.destination.name
                    departsAt := leg.departure
                    arrivesAt := leg.arrival
                    url := flightUrl oi.skyId di.skyId opt.date
                    price := it.price.raw
                    carrier := (leg.carriers.marketing.head?).map CarrierName.name } := by
  intro items
  induction items with
  | nil => exact fun _ => ⟨[], rfl, by simp⟩
  | cons it rest ih =>
    intro hall
    obtain ⟨leg, hleg, hstop⟩ := nonStop_head it (hall it (List.mem_cons_self it rest))
    obtain ⟨rs, hrs, hmem⟩ := ih fun x hx => hall x (List.mem_cons_of_mem _ hx)
    refine ⟨{ date := opt.date
              origin := leg.origin.name
              destination := leg.destination.name
              departsAt := leg.departure
              arrivesAt := leg.arrival
              url := flightUrl oi.skyId di.skyId opt.date
              price := it.price.raw
              carrier := (leg.carriers.marketing.head?).map CarrierName.name } :: rs, ?_, ?_⟩
    · unfold buildResults
      rw [hleg, hrs]
    · intro r hr
      rcases List.mem_cons.mp hr with h | h
      · exact ⟨it, List.mem_cons_self it rest, leg, hleg, hstop, h⟩
      · obtain ⟨it', hit', leg', h1, h2, h3⟩ := hmem r h
        exact ⟨it', List.mem_cons_of_mem _ hit', leg', h1, h2, h3⟩

/-- A failing city resolution can only throw the missing-key or
unknown-city error. -/
theorem getCityInfo_error (env : Env) (sp : String → SkyScannerSuggestions)
    (name : String) (st : St) (e : Err) (st' : St)
    (h : getCityInfo env sp name st = (Except.error e, st')) :
    e = Err.missingCredential ∨ e = Err.unknownCity name := by
  rcases hl : st.cityInfo.lookup name with _ | info
  · by_cases hk : keyMissing env = true
    · left
      unfold getCityInfo fetchAutoComplete at h
      rw [hl, if_pos hk] at h
      injection h with h1 h2
      injection h1 with h1
      exact h1.symm
    · have hk' : keyMissing env = false := by simpa using hk
      rcases he : extractCityInfo (sp name) with _ | info
      · right
        unfold getCityInfo fetchAutoComplete at h
        rw [hl, if_neg (by simp [hk'])] at h
        dsimp only at h
        rw [he] at h
        injection h with h1 h2
        injection h1 with h1
        exact h1.symm
      · rw [getCityInfo_miss_ok env sp name st info hl hk' he] at h
        simp at h
  · rw [getCityInfo_hit env sp name st info hl] at h
    simp at h

/-- The fully evaluated form of `getFlights` once both endpoints are
resolved and the key is present: one recorded search call, then the
bucket/items analysis of the oracle's response. -/
theorem getFlights_resolved (env : Env) (sp : String → SkyScannerSuggestions)
    (fp : SearchParams → SkyScannerFlights) (q : FlightQueryOpt) (st : St)
    (oi di : CityInfo) (st₁ st₂ : St)
    (h₁ : getCityInfo env sp q.origin st = (Except.ok oi, st₁))
    (h₂ : getCityInfo env sp q.destination st₁ = (Except.ok di, st₂))
    (hkey : keyMissing env = false) :
    getFlights env sp fp q st
      = (match firstBucket (fp { date := q.date
                                 origin := oi.skyId
                                 originId := oi.entityId
                                 destination := di.skyId
                                 destinationId := di.entityId }) with
         | none => (Except.ok [], { st₂ with events := st₂.events
             ++ [ApiCall.flightSearch { date := q.date
                                        origin := oi.skyId
                                        originId := oi.entityId
                                        destination := di.skyId
                                        destinationId := di.entityId }] })
         | some bucket =>
           match bucket.items with
           | none => (Except.error (Err.typeError "items"), { st₂ with events := st₂.events
               ++ [ApiCall.flightSearch { date := q.date
                                          origin := oi.skyId
                                          originId := oi.entityId
                                          destination := di.skyId
                                          destinationId := di.entityId }] })
           | some items =>
             (buildResults q oi di (items.filter nonStop), { st₂ with events := st₂.events
               ++ [ApiCall.flightSearch { date := q.date
                                          origin := oi.skyId
                                          originId := oi.entityId
                                          destination := di.skyId
                                          destinationId := di.entityId }] })) := by
  unfold getFlights
  rw [h₁]
  dsimp only
  rw [h₂]
  dsimp only
  unfold fetchFlightSearch
  rw [if_neg (by simp [hkey])]

/-- Claim C7: every flight in a successful `getFlights` output is the
normalization of some item of the response's first bucket whose first leg
has exactly zero stops — an itinerary whose first leg has `stopCount ≠ 0`
never appears; and when every item of the bucket fails the non-stop filter
the call still succeeds, returning the empty list rather than an error. -/
theorem nonstop_filter_sound :
    (∀ env sp fp q st oi di st₁ st₂ b items,
        getCityInfo env sp q.origin st = (Except.ok oi, st₁) →
        getCityInfo env sp q.destination st₁ = (Except.ok di, st₂) →
        keyMissing env = false →
        firstBucket (fp { date := q.date
                          origin := oi.skyId
                          originId := oi.entityId
                          destination := di.skyId
                          destinationId := di.entityId }) = some b →
        b.items = some items →
        ∀ results st₃, getFlights env sp fp q st = (Except.ok results, st₃) →
        ∀ r ∈ results, ∃ it ∈ items, nonStop it = true
          ∧ ∃ leg, it.legs.head? = some leg ∧ leg.stopCount = 0
            ∧ r = { date := q.date
                    origin := leg.origin.name
                    destination := leg.destination.name
                    departsAt := leg.departure
                    arrivesAt := leg.arrival
                    url := flightUrl oi.skyId di.skyId q.date
                    price := it.price.raw
                    carrier := (leg.carriers.marketing.head?).map CarrierName.name })
    ∧ (∀ env sp fp q st oi di st₁ st₂ b items,
        getCityInfo env sp q.origin st = (Except.ok oi, st₁) →
        getCityInfo env sp q.destination st₁ = (Except.ok di, st₂) →
        keyMissing env = false →
        firstBucket (fp { date := q.date
                          origin := oi.skyId
                          originId := oi.entityId
                          destination := di.skyId
                          destinationId := di.entityId }) = some b →
        b.items = some items →
        (∀ it ∈ items, nonStop it = false) →
        (getFlights env sp fp q st).1 = Except.ok []) := by
  constructor
  · intro env sp fp q st oi di st₁ st₂ b items h₁ h₂ hkey hb hi results st₃ hres r hr
    rw [getFlights_resolved env sp fp q st oi di st₁ st₂ h₁ h₂ hkey, hb] at hres
    dsimp only at hres
    rw [hi] at hres
    dsimp only at hres
    obtain ⟨rs, hrs, hmem⟩ := buildResults_ok_mem q oi di (items.filter nonStop)
      fun it hit => List.of_mem_filter hit
    rw [hrs] at hres
    injection hres with hres1 hres2
    injection hres1 with hres1
    subst hres1
    obtain ⟨it, hit, leg, hleg, hstop, hrec⟩ := hmem r hr
    exact ⟨it, List.mem_of_mem_filter hit, List.of_mem_filter hit, leg, hleg, hstop, hrec⟩
  · intro env sp fp q st oi di st₁ st₂ b items h₁ h₂ hkey hb hi hall
    rw [getFlights_resolved env sp fp q st oi di st₁ st₂ h₁ h₂ hkey, hb]
    dsimp only
    rw [hi]
    dsimp only
    have hfil : items.filter nonStop = [] :=
      List.filter_eq_nil_iff.mpr fun it hit => by simp [hall it hit]
    rw [hfil]
    rfl

/-- Claim C7, witness: the sample response holds one non-stop and one
one-stop itinerary; the output keeps exactly the non-stop one, and an
all-one-stop response yields the empty list without error. -/
theorem nonstop_filter_sound_instance :
    (getFlights envOk sampleSuggest sampleFlights sampleQuery st0).1
      = Except.ok [{ date := "2025-09-11"
                     origin := "Budapest"
                     destination := "Corfu"
                     departsAt := "2025-09-11T06:00:00"
                     arrivesAt := "2025-09-11T08:00:00"
                     url := flightUrl "BUD" "CFU" "2025-09-11"
                     price := 123
                     carrier := some "Test Air" }]
    ∧ (∀ it ∈ [oneStopItem], nonStop it = false)
    ∧ (getFlights envOk sampleSuggest allStopsFlights sampleQuery st0).1 = Except.ok [] := by
  refine ⟨rfl, by decide, ?_⟩
  have h₁ : getCityInfo envOk sampleSuggest sampleQuery.origin st0
      = (Except.ok infoBudapest, ⟨[("Budapest", infoBudapest)], [ApiCall.autoComplete "Budapest"]⟩) := by
    rfl
  have h₂ : getCityInfo envOk sampleSuggest sampleQuery.destination
        ⟨[("Budapest", infoBudapest)], [ApiCall.autoComplete "Budapest"]⟩
      = (Except.ok infoCorfu,
          ⟨[("Corfu", infoCorfu), ("Budapest", infoBudapest)],
            [ApiCall.autoComplete "Budapest", ApiCall.autoComplete "Corfu"]⟩) := by
    rfl
  exact nonstop_filter_sound.2 envOk sampleSuggest allStopsFlights sampleQuery st0
    infoBudapest infoCorfu _ _ ⟨some [oneStopItem]⟩ [oneStopItem]
    h₁ h₂ rfl rfl rfl (by decide)

/-- Claim C9: the `bucket.items!` dereference is unguarded — when the
response's first bucket is present but its `items` list is absent,
`getFlights` fails with the (modelled) runtime `TypeError` on `items`; but
thanks to the `legs[0]?.stopCount === 0` filter every retained item has a
first leg, so the later `flight.legs[0]` accesses during `FlightResult`
construction can never fail: no run of `getFlights` ever returns the
`legs` type error. -/
theorem items_unguarded_legs_safe :
    (∀ env sp fp q st,
        (getFlights env sp fp q st).1 ≠ Except.error (Err.typeError "legs"))
    ∧ (∀ env sp fp q st oi di st₁ st₂ b,
        getCityInfo env sp q.origin st = (Except.ok oi, st₁) →
        getCityInfo env sp q.destination st₁ = (Except.ok di, st₂) →
        keyMissing env = false →
        firstBucket (fp { date := q.date
                          origin := oi.skyId
                          originId := oi.entityId
                          destination := di.skyId
                          destinationId := di.entityId }) = some b →
        b.items = none →
        (getFlights env sp fp q st).1 = Except.error (Err.typeError "items")) := by
  constructor
  · intro env sp fp q st heq
    unfold getFlights at heq
    rcases h₁ : getCityInfo env sp q.origin st with ⟨r₁, st₁⟩
    rw [h₁] at heq
    cases r₁ with
    | error e =>
      dsimp only at heq
      injection heq with heq
      subst heq
      rcases getCityInfo_error env sp q.origin st _ st₁ h₁ with h | h <;> simp at h
    | ok originInfo =>
      dsimp only at heq
      rcases h₂ : getCityInfo env sp q.destination st₁ with ⟨r₂, st₂⟩
      rw [h₂] at heq
      cases r₂ with
      | error e =>
        dsimp only at heq
        injection heq with heq
        subst heq
        rcases getCityInfo_error env sp q.destination st₁ _ st₂ h₂ with h | h <;> simp at h
      | ok destinationInfo =>
        dsimp only at heq
        rcases h₃ : fetchFlightSearch env fp
            { date := q.date
              origin := originInfo.skyId
              originId := originInfo.entityId
              destination := destinationInfo.skyId
              destinationId := destinationInfo.entityId } st₂ with ⟨r₃, st₃⟩
        rw [h₃] at heq
        cases r₃ with
        | error e =>
          obtain ⟨hmc, _⟩ := fetchFlightSearch_error env fp _ st₂ e st₃ h₃
          subst hmc
          dsimp only at heq
          injection heq with heq
          cases heq
        | ok result =>
          dsimp only at heq
          rcases hb : firstBucket result with _ | bucket
          · rw [hb] at heq
            simp at heq
          · rw [hb] at heq
            dsimp only at heq
            rcases hi : bucket.items with _ | items
            · rw [hi] at heq
              dsimp only at heq
              injection heq with heq
              injection heq with heq
              exact absurd heq (by decide)
            · rw [hi] at heq
              dsimp only at heq
              obtain ⟨rs, hrs, _⟩ := buildResults_ok_mem q originInfo destinationInfo
                (items.filter nonStop) fun it hit => List.of_mem_filter hit
              rw [hrs] at heq
              simp at heq
  · intro env sp fp q st oi di st₁ st₂ b h₁ h₂ hkey hb hi
    rw [getFlights_resolved env sp fp q st oi di st₁ st₂ h₁ h₂ hkey, hb]
    dsimp only
    rw [hi]

/-- Claim C9, witness: the first bucket of the no-items oracle is present
with `items` absent, and `getFlights` fails on the `items` dereference. -/
theorem items_unguarded_instance :
    firstBucket (noItemsFlights
        { date := "2025-09-11"
          origin := "BUD"
          originId := "27539733"
          destination := "CFU"
          destinationId := "27539477" }) = some ⟨none⟩
    ∧ (getFlights envOk sampleSuggest noItemsFlights sampleQuery st0).1
      = Except.error (Err.typeError "items") := by
  refine ⟨rfl, ?_⟩
  have h₁ : getCityInfo envOk sampleSuggest sampleQuery.origin st0
      = (Except.ok infoBudapest,
          ⟨[("Budapest", infoBudapest)], [ApiCall.autoComplete "Budapest"]⟩) := by
    rfl
  have h₂ : getCityInfo envOk sampleSuggest sampleQuery.destination
        ⟨[("Budapest", infoBudapest)], [ApiCall.autoComplete "Budapest"]⟩
      = (Except.ok infoCorfu,
          ⟨[("Corfu", infoCorfu), ("Budapest", infoBudapest)],
            [ApiCall.autoComplete "Budapest", ApiCall.autoComplete "Corfu"]⟩) := by
    rfl
  exact items_unguarded_legs_safe.2 envOk sampleSuggest noItemsFlights sampleQuery st0
    infoBudapest infoCorfu _ _ ⟨none⟩ h₁ h₂ rfl rfl rfl
